import Mathlib

/-!
Shallow embedding of PackagePatrol's `src/dependency_checker.py`
(`DependencyChecker`: requirement parsing, the update-decision policy, the
repository scan `check_dependencies`, and the publication step
`create_pull_request`).  External collaborators (the PyPI registry and the
GitHub content API) are modelled as explicit function parameters; every
failure path that Python reports with `None` or a caught exception is an
`Option`/`Bool` in the model.
-/

namespace PackagePatrol

/-! ## Character and list utilities mirroring Python string primitives -/

/-- The two quote characters removed by Python's `req.strip("'\"")`. -/
def isQuoteChar (c : Char) : Bool := c == '\'' || c == '"'

/-- Python's `\s` / `str.strip()` whitespace class. -/
def isPySpace (c : Char) : Bool :=
  c == ' ' || c == '\t' || c == '\n' || c == '\r' || c == '\x0b' || c == '\x0c'

/-- The version-comparison symbols of the parser's regular expressions
(`[<>=!~]`). -/
def isSpecChar (c : Char) : Bool :=
  c == '<' || c == '>' || c == '=' || c == '!' || c == '~'

/-- `charsStart p l` holds when the character list `l` begins with `p`
(Python `str.startswith`). -/
def charsStart : List Char → List Char → Bool
  | [], _ => true
  | _ :: _, [] => false
  | a :: as, b :: bs => a == b && charsStart as bs

/-- Python `str.strip()`: drop whitespace from both ends. -/
def pyStrip (l : List Char) : List Char :=
  ((l.dropWhile isPySpace).reverse.dropWhile isPySpace).reverse

/-- Python `str.split(sep)` for a one-character separator. -/
def splitOnChar (sep : Char) : List Char → List (List Char)
  | [] => [[]]
  | c :: cs =>
    let rest := splitOnChar sep cs
    if c = sep then [] :: rest
    else
      match rest with
      | r :: rs => (c :: r) :: rs
      | [] => [[c]]

/-- Python `req.strip("'\"")`: remove quote characters from both ends. -/
def stripQuotesList (l : List Char) : List Char :=
  ((l.dropWhile isQuoteChar).reverse.dropWhile isQuoteChar).reverse

/-- `req.strip("'\"")` on a `String`. -/
def stripQuotes (s : String) : String := ⟨stripQuotesList s.data⟩

/-- Python `str.startswith` applied to a tuple of alternatives. -/
def startsWithAny (l : List Char) (ps : List String) : Bool :=
  ps.any fun p => charsStart p.data l

/-! ## Model of the external `packaging` version library

`packaging.version.parse` and `packaging.specifiers.SpecifierSet` are an
external dependency of the source, not repository code.  They are modelled
here on the PEP 440 subset actually exercised by the checker: a version is a
plain dotted numeric release (`1.2.10`); pre/post/dev/local segments,
wildcards and `===` are outside the subset and treated as unparsable, which
the caller `check_update_needed` turns into its fail-open answer. -/

/-- A parsed PEP 440 version, restricted to its numeric release segments. -/
structure PyVersion where
  release : List Nat
deriving DecidableEq, Repr

/-- Interpret a nonempty run of decimal digits; `none` on anything else. -/
def digitsValAux : List Char → Nat → Option Nat
  | [], acc => some acc
  | c :: cs, acc =>
    if c.isDigit then digitsValAux cs (acc * 10 + (c.toNat - 48)) else none

/-- Numeric value of a nonempty digit string. -/
def digitsToNat (l : List Char) : Option Nat :=
  if l = [] then none else digitsValAux l 0

/-- Parse every dot-separated release segment, failing if any fails. -/
def parseRelease : List (List Char) → Option (List Nat)
  | [] => some []
  | p :: ps =>
    match digitsToNat p, parseRelease ps with
    | some n, some ns => some (n :: ns)
    | _, _ => none

/-- `packaging.version.parse` on the plain-release subset: dot-separated
decimal segments, at least one. -/
def versionParse (s : String) : Option PyVersion :=
  match parseRelease (splitOnChar '.' s.data) with
  | some ns => if ns = [] then none else some ⟨ns⟩
  | none => none

/-- Pad a release tuple with zeros up to length `n` (PEP 440 comparison
pads the shorter release). -/
def padTo (n : Nat) (l : List Nat) : List Nat :=
  l ++ List.replicate (n - l.length) 0

/-- Lexicographic comparison of release tuples. -/
def natListCmp : List Nat → List Nat → Ordering
  | [], [] => .eq
  | [], _ :: _ => .lt
  | _ :: _, [] => .gt
  | a :: as, b :: bs =>
    if a < b then .lt else if b < a then .gt else natListCmp as bs

/-- PEP 440 ordering on plain releases: zero-pad, then compare
lexicographically. -/
def verCmp (a b : PyVersion) : Ordering :=
  let n := max a.release.length b.release.length
  natListCmp (padTo n a.release) (padTo n b.release)

/-- `a < b` on versions. -/
def verLt (a b : PyVersion) : Bool := verCmp a b == .lt

/-- `a == b` on versions (`1.0` equals `1.0.0`). -/
def verEq (a b : PyVersion) : Bool := verCmp a b == .eq

/-- `a <= b` on versions. -/
def verLe (a b : PyVersion) : Bool := verLt a b || verEq a b

/-- The comparison operators of `packaging.specifiers`. -/
inductive SpecOp
  | eq | ne | le | ge | lt | gt | compat
deriving DecidableEq, Repr

/-- One specifier clause: an operator and its version operand. -/
structure Specifier where
  op : SpecOp
  ver : PyVersion
deriving DecidableEq, Repr

/-- Parse one specifier clause (`packaging.specifiers.Specifier`): a
comparison operator followed by a version; `~=` demands at least two
release segments.  Anything else — including a bare version with no
operator — is invalid. -/
def parseSpecifier (part : List Char) : Option Specifier :=
  match pyStrip part with
  | '~' :: '=' :: rest =>
    match versionParse ⟨pyStrip rest⟩ with
    | some v => if 2 ≤ v.release.length then some ⟨.compat, v⟩ else none
    | none => none
  | '=' :: '=' :: rest => (versionParse ⟨pyStrip rest⟩).map fun v => ⟨.eq, v⟩
  | '!' :: '=' :: rest => (versionParse ⟨pyStrip rest⟩).map fun v => ⟨.ne, v⟩
  | '<' :: '=' :: rest => (versionParse ⟨pyStrip rest⟩).map fun v => ⟨.le, v⟩
  | '>' :: '=' :: rest => (versionParse ⟨pyStrip rest⟩).map fun v => ⟨.ge, v⟩
  | '<' :: rest => (versionParse ⟨pyStrip rest⟩).map fun v => ⟨.lt, v⟩
  | '>' :: rest => (versionParse ⟨pyStrip rest⟩).map fun v => ⟨.gt, v⟩
  | _ => none

/-- Parse a comma-separated list of clauses, all of which must succeed. -/
def parseSpecList : List (List Char) → Option (List Specifier)
  | [] => some []
  | p :: ps =>
    match parseSpecifier p, parseSpecList ps with
    | some sp, some sps => some (sp :: sps)
    | _, _ => none

/-- `packaging.specifiers.SpecifierSet`: split on commas, drop blank
pieces, parse every remaining clause (the empty string is the valid empty
set). -/
def parseSpecifierSet (s : String) : Option (List Specifier) :=
  parseSpecList (((splitOnChar ',' s.data).map pyStrip).filter (· ≠ []))

/-- Containment of a version in one specifier clause.  `~=` follows
PEP 440: at least the operand, and matching its release prefix with the
last segment dropped. -/
def specContains (sp : Specifier) (v : PyVersion) : Bool :=
  match sp.op with
  | .eq => verEq v sp.ver
  | .ne => !verEq v sp.ver
  | .le => verLe v sp.ver
  | .ge => verLe sp.ver v
  | .lt => verLt v sp.ver
  | .gt => verLt sp.ver v
  | .compat =>
    let k := sp.ver.release.length - 1
    verLe sp.ver v && ((padTo k v.release).take k == sp.ver.release.take k)

/-- Containment in a specifier set: every clause must admit the version. -/
def setContains (ss : List Specifier) (v : PyVersion) : Bool :=
  ss.all fun sp => specContains sp v

/-! ## The embedded source: `DependencyChecker` -/

/-- The skip set of `get_latest_version` (source lines 36-47), verbatim. -/
def standard_libs : List String :=
  ["sys", "os", "re", "time", "logging", "json", "requests", "from", "import", "def"]

/-- `get_latest_version` (source lines 30-67).  The PyPI HTTP call is the
external collaborator, passed in as `registry`; a request failure is
`registry` returning `none` (the `except` branch returns `None`). -/
def get_latest_version (registry : String → Option String)
    (package_name : String) : Option String :=
  if package_name = "" then none
  else if package_name ∈ standard_libs then none
  else registry package_name

/-- The prefix tuple of `parse_requirement`'s skip test (source line 75),
verbatim: note it does not contain `#`. -/
def excludedStarts : List String :=
  ["--", "-e", "from", "import", "def", "os", "sys"]

/-- A parsed requirement: the dict
`{"name": ..., "spec": ..., "operator": ...}`. -/
structure Requirement where
  name : String
  spec : String
  operator : String
deriving DecidableEq, Repr

/-- `re.match(r"([^<>=!~\s]+)([<>=!~].+)?", req)`: the greedy leading run
of non-comparison non-whitespace characters, then optionally one
comparison character followed by at least one further (non-newline)
character.  `none` is a failed match (no group-1 character at position
zero). -/
def reqMatch (l : List Char) : Option (List Char × Option (List Char)) :=
  let g1 := l.takeWhile fun c => !(isSpecChar c || isPySpace c)
  if g1 = [] then none
  else
    match l.drop g1.length with
    | [] => some (g1, none)
    | c :: tail =>
      if isSpecChar c then
        let run := tail.takeWhile (· ≠ '\n')
        if run = [] then some (g1, none) else some (g1, some (c :: run))
      else some (g1, none)

/-- `parse_requirement` (source lines 69-87). -/
def parse_requirement (req : String) : Requirement :=
  let r := stripQuotes req
  if startsWithAny r.data excludedStarts then
    { name := "", spec := "", operator := "" }
  else
    match reqMatch r.data with
    | some (g1, g2) =>
      let spec := pyStrip (g2.getD [])
      { name := ⟨pyStrip g1⟩
        spec := ⟨spec⟩
        operator := if spec = [] then "" else ⟨spec.takeWhile isSpecChar⟩ }
    | none => { name := ⟨pyStrip r.data⟩, spec := "", operator := "" }

/-- `check_update_needed` (source lines 89-105).  The Python `try` around
the `packaging` calls becomes the `Option` matches: any parse failure is
the caught-exception answer `true`. -/
def check_update_needed (current_spec latest_version : String) : Bool :=
  if current_spec = "" then true
  else
    match parseSpecifierSet current_spec, versionParse latest_version with
    | some specSet, some latest =>
      if charsStart ['~', '='] current_spec.data then
        match versionParse ⟨current_spec.data.drop 2⟩ with
        | some current =>
          verLt current latest && (latest.release.take 2 == current.release.take 2)
        | none => true
      else !setContains specSet latest
    | _, _ => true

/-- `update_requirement` (source lines 107-115). -/
def update_requirement (req latest_version : String) : String :=
  let parsed := parse_requirement req
  if parsed.spec ≠ "" then
    if parsed.operator = "~=" then parsed.name ++ "~=" ++ latest_version
    else parsed.name ++ parsed.operator ++ latest_version
  else parsed.name ++ "==" ++ latest_version

/-! ## The repository scan `check_dependencies` -/

/-- The GitHub repository as seen by `check_dependencies`: its top-level
listing (`repo.get_contents("")`) and its decoded file contents
(`repo.get_contents(path)`); `none` models the call raising, which the
source catches and logs per file. -/
structure Repo where
  listing : List String
  files : String → Option String

/-- The candidate manifest names (source lines 18-23). -/
def file_paths : List String :=
  ["requirements.txt", "requirements.lock", "setup.py", "Pipfile"]

/-- `re.findall(r"^[^#\n]+", content, re.MULTILINE)` (source line 247):
per line, the maximal leading run without `#`, kept when nonempty. -/
def scanLines (content : String) : List String :=
  (splitOnChar '\n' content.data).filterMap fun line =>
    let m := line.takeWhile (· ≠ '#')
    if m = [] then none else some ⟨m⟩

/-- One attempt of the `setup.py` pattern
`install_requires\s*=\s*\[(.*?)\]` at the current position: the literal
keyword, optional whitespace, `=`, optional whitespace, `[`, then the
(non-greedy, DOTALL) capture up to the first `]`, which must exist. -/
def tryInstallHere (l : List Char) : Option (List Char) :=
  if charsStart "install_requires".data l then
    match (l.drop 16).dropWhile isPySpace with
    | '=' :: r2 =>
      match r2.dropWhile isPySpace with
      | '[' :: r4 =>
        let g := r4.takeWhile (· ≠ ']')
        if r4.drop g.length = [] then none else some g
      | _ => none
    | _ => none
  else none

/-- `re.search` of the `install_requires` pattern: first position where it
matches. -/
def matchInstallRequires : List Char → Option (List Char)
  | [] => none
  | c :: tail =>
    match tryInstallHere (c :: tail) with
    | some g => some g
    | none => matchInstallRequires tail

/-- `re.findall(r"'([^']+)'", body)` (source lines 241-243): every
non-overlapping single-quoted nonempty run. -/
def findQuoted : List Char → Option (List Char) → List String
  | [], _ => []
  | c :: rest, none =>
    if c = '\'' then findQuoted rest (some []) else findQuoted rest none
  | c :: rest, some buf =>
    if c = '\'' then
      if buf = [] then findQuoted rest (some [])
      else ⟨buf.reverse⟩ :: findQuoted rest none
    else findQuoted rest (some (c :: buf))

/-- The requirement lines scanned for one manifest (source lines
235-247): the `install_requires` extraction for `setup.py`, the
line-by-line regular expression otherwise. -/
def extractRequirements (file_path content : String) : List String :=
  if file_path = "setup.py" then
    match matchInstallRequires content.data with
    | some g => findQuoted g none
    | none => []
  else scanLines content

/-- Python `parsed_req["spec"].lstrip("=~<>!")` (source line 254). -/
def lstripOps (s : String) : String :=
  ⟨s.data.dropWhile fun c => c == '=' || c == '~' || c == '<' || c == '>' || c == '!'⟩

/-- One proposed rewrite `{"old": ..., "new": ...}`. -/
structure VersionUpdate where
  old : String
  new : String
deriving DecidableEq, Repr

/-- The body of `check_dependencies`' per-requirement loop (source lines
250-261): parse, look up the latest version (`if latest_version:` is
Python truthiness, so the empty string is also skipped), strip the
comparison characters off the spec, consult `check_update_needed`, render
the replacement, and keep it only when it differs from the line. -/
def processRequirement (registry : String → Option String) (req : String) :
    Option VersionUpdate :=
  let parsed_req := parse_requirement req
  match get_latest_version registry parsed_req.name with
  | none => none
  | some latest_version =>
    if latest_version = "" then none
    else
      let current_version := lstripOps parsed_req.spec
      if check_update_needed current_version latest_version then
        let updated_req := update_requirement req latest_version
        if req ≠ updated_req then some ⟨req, updated_req⟩ else none
      else none

/-- The body of `check_dependencies`' per-file loop (source lines
221-264): skip a manifest missing from the listing (warning only), skip a
file whose read raises (caught and logged), and store the computed update
list only when it is nonempty. -/
def checkDepStep (registry : String → Option String) (repo : Repo)
    (updates : List (String × List VersionUpdate)) (file_path : String) :
    List (String × List VersionUpdate) :=
  if file_path ∈ repo.listing then
    match repo.files file_path with
    | none => updates
    | some content =>
      let file_updates :=
        (extractRequirements file_path content).filterMap (processRequirement registry)
      if file_updates ≠ [] then updates ++ [(file_path, file_updates)] else updates
  else updates

/-- `check_dependencies` (source lines 216-270): the insertion-ordered
update map, as an association list over the fixed manifest names. -/
def check_dependencies (registry : String → Option String) (repo : Repo) :
    List (String × List VersionUpdate) :=
  file_paths.foldl (checkDepStep registry repo) []

/-! ## The publication step `create_pull_request` -/

/-- Core of Python `str.replace` for a nonempty pattern: scan left to
right, replacing each non-overlapping occurrence. -/
def replaceCore (old new : List Char) : List Char → List Char
  | [] => []
  | c :: rest =>
    if h : charsStart old (c :: rest) = true ∧ old ≠ [] then
      new ++ replaceCore old new ((c :: rest).drop old.length)
    else c :: replaceCore old new rest
termination_by s => s.length
decreasing_by
  · simp only [List.length_drop]
    exact Nat.sub_lt (by simp) (List.length_pos.mpr h.2)
  · simp

/-- Python `content.replace(old, new)` (source line 314); an empty
pattern inserts `new` at every boundary, as Python does. -/
def pyReplace (s old new : List Char) : List Char :=
  if old = [] then new ++ s.foldr (fun c acc => c :: (new ++ acc)) []
  else replaceCore old new s

/-- The GitHub side of publication, as `create_pull_request` consumes it:
reading a file on the work branch (`none` models the call raising),
whether `update_file` for a path succeeds (`false` models it raising,
which the source catches per file), and the outcome of `create_pull`
(`none` models it raising, which the source turns into `None`). -/
structure PubEnv where
  getFile : String → Option String
  writeOk : String → Bool
  prUrl : Option String

/-- The body of `create_pull_request`'s per-file loop (source lines
308-324): read the branch copy, apply every approved `old -> new`
replacement, and attempt the write; any exception is caught, logged, and
the loop moves on.  The accumulator records the writes performed. -/
def publishStep (env : PubEnv) (written : List (String × String))
    (fu : String × List VersionUpdate) : List (String × String) :=
  match env.getFile fu.1 with
  | none => written
  | some content =>
    let newContent :=
      fu.2.foldl (fun c u => pyReplace c u.old.data u.new.data) content.data
    if env.writeOk fu.1 then written ++ [(fu.1, ⟨newContent⟩)] else written

/-- `create_pull_request` (source lines 296-345): nothing happens on an
empty update map; otherwise every file is processed in order and the pull
request is attempted afterwards.  The result pairs the file writes that
were performed with the pull-request outcome. -/
def create_pull_request (env : PubEnv)
    (updates : List (String × List VersionUpdate)) :
    List (String × String) × Option String :=
  if updates = [] then ([], none)
  else (updates.foldl (publishStep env) [], env.prUrl)

/-- The outcome of one file's publication attempt considered in
isolation: `none` when its branch read or its write raises, otherwise
the path and the content written.  It depends only on this file's own
environment answers, never on the other files in the batch. -/
def attemptedWrite (env : PubEnv) (fu : String × List VersionUpdate) :
    Option (String × String) :=
  match env.getFile fu.1 with
  | none => none
  | some content =>
    let newContent :=
      fu.2.foldl (fun c u => pyReplace c u.old.data u.new.data) content.data
    if env.writeOk fu.1 then some (fu.1, ⟨newContent⟩) else none

/-! ## Concrete scenario fixtures -/

/-- A registry that knows `requests` at `2.31.0` and nothing else. -/
def registryC1 : String → Option String :=
  fun n => if n = "requests" then some "2.31.0" else none

/-- A repository whose only manifest is `requirements.txt` declaring
exactly `requests==2.25.0`. -/
def repoC1 : Repo :=
  ⟨["requirements.txt"],
    fun fp => if fp = "requirements.txt" then some "requests==2.25.0" else none⟩

/-- A registry that knows `foo` at `2.0.0` and nothing else. -/
def registryC2 : String → Option String :=
  fun n => if n = "foo" then some "2.0.0" else none

/-- A repository whose only manifest is `requirements.txt` declaring
exactly `foo>=1.0.0`. -/
def repoC2 : Repo :=
  ⟨["requirements.txt"],
    fun fp => if fp = "requirements.txt" then some "foo>=1.0.0" else none⟩

/-- A registry that knows `flask` at `2.0.0` and nothing else. -/
def registryW : String → Option String :=
  fun n => if n = "flask" then some "2.0.0" else none

/-- A repository whose only manifest is `requirements.txt` declaring
exactly `flask==1.0.0`. -/
def repoW : Repo :=
  ⟨["requirements.txt"],
    fun fp => if fp = "requirements.txt" then some "flask==1.0.0" else none⟩

/-- A publication environment in which every file read succeeds, every
file write raises, and the pull-request creation succeeds. -/
def envC3 : PubEnv :=
  ⟨fun _ => some "foo==1.0", fun _ => false, some "https://example.invalid/pull/1"⟩

/-- A publication environment in which every file read succeeds, the
write of `requirements.txt` raises while every other write succeeds, and
the pull-request creation succeeds. -/
def envC3m : PubEnv :=
  ⟨fun fp => if fp = "requirements.txt" then some "foo==1.0" else some "bar==1.0",
    fun fp => fp != "requirements.txt",
    some "https://example.invalid/pull/2"⟩

/-- A two-file approved update map: `requirements.txt` first (whose write
fails under `envC3m`), then `Pipfile` (whose write succeeds). -/
def updatesC3m : List (String × List VersionUpdate) :=
  [("requirements.txt", [⟨"foo==1.0", "foo==2.0"⟩]),
    ("Pipfile", [⟨"bar==1.0", "bar==2.0"⟩])]

/-- The invariant every stored entry of the update map satisfies: its file
was listed, its update list is nonempty, and no update is a no-op. -/
def GoodEntry (repo : Repo) (e : String × List VersionUpdate) : Prop :=
  e.1 ∈ repo.listing ∧ e.2 ≠ [] ∧ ∀ u ∈ e.2, u.old ≠ u.new

/-! ## Helper lemmas -/

theorem processRequirement_ne (registry : String → Option String) (req : String)
    (u : VersionUpdate) (h : processRequirement registry req = some u) :
    u.old ≠ u.new := by
  simp only [processRequirement] at h
  split at h
  · exact absurd h (by simp)
  · split at h
    · exact absurd h (by simp)
    · split at h
      · split at h
        · rename_i hne
          rw [Option.some_inj] at h
          rw [← h]
          exact hne
        · exact absurd h (by simp)
      · exact absurd h (by simp)

theorem checkDepStep_good (registry : String → Option String) (repo : Repo)
    (acc : List (String × List VersionUpdate)) (fp : String)
    (hacc : ∀ e ∈ acc, GoodEntry repo e) :
    ∀ e ∈ checkDepStep registry repo acc fp, GoodEntry repo e := by
  intro e he
  simp only [checkDepStep] at he
  split at he
  · rename_i hmem
    split at he
    · exact hacc e he
    · split at he
      · rename_i hne
        rcases List.mem_append.mp he with h | h
        · exact hacc e h
        · rcases List.mem_singleton.mp h with rfl
          refine ⟨hmem, hne, ?_⟩
          intro u hu
          rcases List.mem_filterMap.mp hu with ⟨req, -, hpr⟩
          exact processRequirement_ne registry req u hpr
      · exact hacc e he
  · exact hacc e he

theorem foldl_checkDepStep_good (registry : String → Option String) (repo : Repo) :
    ∀ (fps : List String) (acc : List (String × List VersionUpdate)),
      (∀ e ∈ acc, GoodEntry repo e) →
      ∀ e ∈ fps.foldl (checkDepStep registry repo) acc, GoodEntry repo e := by
  intro fps
  induction fps with
  | nil => intro acc hacc; simpa using hacc
  | cons fp fps ih =>
    intro acc hacc
    exact ih _ (checkDepStep_good registry repo acc fp hacc)

theorem check_dependencies_good (registry : String → Option String) (repo : Repo) :
    ∀ e ∈ check_dependencies registry repo, GoodEntry repo e :=
  foldl_checkDepStep_good registry repo file_paths [] (by simp)

theorem publishStep_eq_attempted (env : PubEnv)
    (written : List (String × String)) (fu : String × List VersionUpdate) :
    publishStep env written fu = written ++ (attemptedWrite env fu).toList := by
  simp only [publishStep, attemptedWrite]
  cases h : env.getFile fu.1
  · simp
  · simp only []
    split <;> simp

theorem foldl_publishStep_attempted (env : PubEnv) :
    ∀ (ups : List (String × List VersionUpdate)) (written : List (String × String)),
      ups.foldl (publishStep env) written =
        written ++ ups.filterMap (attemptedWrite env) := by
  intro ups
  induction ups with
  | nil => intro written; simp
  | cons fu ups ih =>
    intro written
    rw [List.foldl_cons, ih (publishStep env written fu),
      publishStep_eq_attempted]
    cases h : attemptedWrite env fu
    · simp [List.filterMap_cons, h]
    · simp [List.filterMap_cons, h]

theorem charsStart_iff (p l : List Char) :
    charsStart p l = true ↔ ∃ r, l = p ++ r := by
  induction p generalizing l with
  | nil => simp [charsStart]
  | cons a as ih =>
    cases l with
    | nil => simp [charsStart]
    | cons b bs =>
      simp only [charsStart, Bool.and_eq_true, beq_iff_eq, ih, List.cons_append,
        List.cons.injEq]
      constructor
      · rintro ⟨rfl, r, rfl⟩
        exact ⟨r, rfl, rfl⟩
      · rintro ⟨r, rfl, rfl⟩
        exact ⟨rfl, r, rfl⟩

theorem charsStart_self_append (p r : List Char) :
    charsStart p (p ++ r) = true :=
  (charsStart_iff p (p ++ r)).mpr ⟨r, rfl⟩

theorem stripQuotes_keeps_start (tok req : String)
    (hq : tok.data.all (fun c => !isQuoteChar c) = true) (hne : tok.data ≠ [])
    (hpre : charsStart tok.data req.data = true) :
    charsStart tok.data (stripQuotes req).data = true := by
  obtain ⟨r, hr⟩ := (charsStart_iff _ _).mp hpre
  have hdata : (stripQuotes req).data = stripQuotesList req.data := rfl
  rw [hdata, hr]
  unfold stripQuotesList
  have hhead : (tok.data ++ r).dropWhile isQuoteChar = tok.data ++ r := by
    rcases htok : tok.data with _ | ⟨c, cs⟩
    · exact absurd htok hne
    · have hc : isQuoteChar c = false := by
        have : c ∈ tok.data := by rw [htok]; exact List.mem_cons_self c cs
        have := List.all_eq_true.mp hq c this
        simpa using this
      simp [List.dropWhile_cons, hc]
  rw [hhead, List.reverse_append]
  have hlast : tok.data.reverse.dropWhile isQuoteChar = tok.data.reverse := by
    rcases hrev : tok.data.reverse with _ | ⟨d, ds⟩
    · simp
    · have hd : isQuoteChar d = false := by
        have : d ∈ tok.data := by
          rw [← List.mem_reverse, hrev]
          exact List.mem_cons_self d ds
        have := List.all_eq_true.mp hq d this
        simpa using this
      simp [List.dropWhile_cons, hd]
  rw [List.dropWhile_append]
  by_cases hempty : (r.reverse.dropWhile isQuoteChar).isEmpty = true
  · rw [if_pos hempty, hlast]
    simp only [List.reverse_reverse]
    simpa using charsStart_self_append tok.data []
  · rw [if_neg hempty, List.reverse_append, List.reverse_reverse]
    exact charsStart_self_append tok.data _

theorem startsWithAny_of_mem (tok : String) (l : List Char) (ps : List String)
    (htok : tok ∈ ps) (h : charsStart tok.data l = true) :
    startsWithAny l ps = true := by
  simp only [startsWithAny, List.any_eq_true]
  exact ⟨tok, htok, h⟩

theorem operator_empty_of_spec_empty (req : String) :
    (parse_requirement req).spec = "" → (parse_requirement req).operator = "" := by
  simp only [parse_requirement]
  split
  · intro _; rfl
  · split
    · rename_i g1 g2 heq
      intro h
      simp only at h ⊢
      have hs : pyStrip (g2.getD []) = [] := by
        have := congrArg String.data h
        simpa using this
      simp [hs]
    · intro _; rfl

/-! ## Claim theorems -/

/-- C1: with `requirements.txt` declaring exactly `requests==2.25.0` and a
registry whose latest `requests` is `2.31.0`, the claim expects a single
update `{old: requests==2.25.0, new: requests==2.31.0}`.  The code instead
produces an empty update map: `get_latest_version` skips `requests`
because it sits in the `standard_libs` set, even though the registry
knows the newer version — so no update, no file write and no pull request
can follow. -/
theorem requestsScenarioSkipped :
    registryC1 "requests" = some "2.31.0" ∧
    get_latest_version registryC1 "requests" = none ∧
    check_dependencies registryC1 repoC1 = [] :=
  ⟨rfl, rfl, by decide⟩

/-- C2: for the line `foo>=1.0.0` with latest version `2.0.0`, the latest
version satisfies the full parsed specifier set `>=1.0.0`, so the claimed
containment policy would surface no update — yet `check_dependencies`
surfaces `{old: foo>=1.0.0, new: foo>=2.0.0}`, because it strips the
comparison characters off the spec and hands `check_update_needed` the
bare version `1.0.0`, an invalid specifier, which fail-opens to `true`. -/
theorem containmentPolicyBypassed :
    parseSpecifierSet ">=1.0.0" = some [⟨SpecOp.ge, ⟨[1, 0, 0]⟩⟩] ∧
    versionParse "2.0.0" = some ⟨[2, 0, 0]⟩ ∧
    setContains [⟨SpecOp.ge, ⟨[1, 0, 0]⟩⟩] ⟨[2, 0, 0]⟩ = true ∧
    check_dependencies registryC2 repoC2 =
      [("requirements.txt", [⟨"foo>=1.0.0", "foo>=2.0.0"⟩])] :=
  ⟨by decide, by decide, by decide, by decide⟩

/-- C3 counterexample: in an environment where the single approved file's
write raises and the pull-request call succeeds, `create_pull_request`
performs no write yet still opens the pull request — refuting the claim
that a failed file write aborts the remaining publication steps and
prevents the pull request. -/
theorem failedWriteStillOpensPR :
    envC3.writeOk "requirements.txt" = false ∧
    create_pull_request envC3
        [("requirements.txt", [VersionUpdate.mk "foo==1.0" "foo==2.0"])] =
      ([], some "https://example.invalid/pull/1") :=
  ⟨rfl, rfl⟩

/-- C3 amended: a failed file write during publication is caught and
logged, and the remaining steps still run.  The writes performed are
exactly the per-file successful attempts — every file of the batch is
still processed, and a file is written precisely when its own read and
write succeed, independent of failures on the other files — and the
pull-request outcome is whatever `create_pull` yields, independent of
the write failures. -/
theorem createPullRequestContinues (env : PubEnv)
    (updates : List (String × List VersionUpdate)) (h : updates ≠ []) :
    (create_pull_request env updates).2 = env.prUrl ∧
    (create_pull_request env updates).1 =
      updates.filterMap (attemptedWrite env) ∧
    ∀ fu w, fu ∈ updates → attemptedWrite env fu = some w →
      w ∈ (create_pull_request env updates).1 := by
  have hchar : (create_pull_request env updates).1 =
      updates.filterMap (attemptedWrite env) := by
    simp only [create_pull_request, if_neg h]
    rw [foldl_publishStep_attempted env updates []]
    simp
  refine ⟨by simp [create_pull_request, if_neg h], hchar, ?_⟩
  intro fu w hfu hw
  rw [hchar]
  exact List.mem_filterMap.mpr ⟨fu, hfu, hw⟩

/-- C3 amended witness at a two-file batch whose first write fails and
whose second write succeeds. -/
theorem createPullRequestContinuesWitness :
    envC3m.writeOk "requirements.txt" = false ∧
    envC3m.writeOk "Pipfile" = true ∧
    ((create_pull_request envC3m updatesC3m).2 = envC3m.prUrl ∧
      (create_pull_request envC3m updatesC3m).1 =
        updatesC3m.filterMap (attemptedWrite envC3m) ∧
      ∀ fu w, fu ∈ updatesC3m → attemptedWrite envC3m fu = some w →
        w ∈ (create_pull_request envC3m updatesC3m).1) :=
  ⟨by decide, by decide, createPullRequestContinues envC3m updatesC3m (by decide)⟩

/-- C4 counterexample: the comment line `# a comment` starts with the
claimed excluded prefix `#`, but `parse_requirement` does not return the
empty-name sentinel — its skip tuple contains no `#`, so the line parses
to name `#`. -/
theorem hashLineNotSentinel :
    parse_requirement "# a comment" =
      { name := "#", spec := "", operator := "" } ∧
    parse_requirement "# a comment" ≠
      { name := "", spec := "", operator := "" } :=
  ⟨by decide, by decide⟩

/-- C4 amended: for every input line that, after stripping surrounding
quotes, starts with `--`, `-e`, `from`, `import` or `def`,
`parse_requirement` returns the empty-name sentinel (lines starting with
`#` are not excluded by the parser; comment filtering happens in its
callers). -/
theorem parseRequirementSkips (req : String)
    (h : startsWithAny (stripQuotes req).data
        ["--", "-e", "from", "import", "def"] = true) :
    parse_requirement req = { name := "", spec := "", operator := "" } := by
  have hall : startsWithAny (stripQuotes req).data excludedStarts = true := by
    simp only [startsWithAny, excludedStarts, List.any_cons, List.any_nil,
      Bool.or_eq_true, Bool.or_false] at h ⊢
    tauto
  simp only [parse_requirement, hall, if_true]

/-- C4 amended witness: the editable-install line `-e .` parses to the
sentinel. -/
theorem parseRequirementSkipsWitness :
    parse_requirement "-e ." = { name := "", spec := "", operator := "" } :=
  parseRequirementSkips "-e ." (by decide)

/-- C5: the decision policy of `check_update_needed`: an empty specifier
always answers true; a specifier beginning with `~=` answers true exactly
when the latest version is strictly greater than the pinned version and
shares its `release[:2]` major.minor pair; any other parseable specifier
answers true exactly when the latest version is not contained in the
specifier set — together with the claim's two `~=` examples. -/
theorem checkUpdateNeededPolicy (cs lv : String) :
    (cs = "" → check_update_needed cs lv = true) ∧
    (∀ specSet latest current,
      parseSpecifierSet cs = some specSet →
      versionParse lv = some latest →
      charsStart ['~', '='] cs.data = true →
      versionParse ⟨cs.data.drop 2⟩ = some current →
      (check_update_needed cs lv = true ↔
        verLt current latest = true ∧
          latest.release.take 2 = current.release.take 2)) ∧
    (∀ specSet latest,
      cs ≠ "" →
      parseSpecifierSet cs = some specSet →
      versionParse lv = some latest →
      charsStart ['~', '='] cs.data = false →
      (check_update_needed cs lv = true ↔ setContains specSet latest = false)) ∧
    check_update_needed "~=1.2.0" "1.2.5" = true ∧
    check_update_needed "~=1.2.0" "1.3.0" = false := by
  refine ⟨?_, ?_, ?_, by decide, by decide⟩
  · intro h
    simp [check_update_needed, h]
  · intro specSet latest current h1 h2 h3 h4
    have hcs : cs ≠ "" := by
      intro h
      rw [h] at h3
      exact absurd h3 (by decide)
    simp [check_update_needed, hcs, h1, h2, h3, h4, Bool.and_eq_true, beq_iff_eq]
  · intro specSet latest hcs h1 h2 h3
    simp [check_update_needed, hcs, h1, h2, h3]

/-- C5 witness: the `~=` branch applied at `~=1.2.0` versus `1.2.5`. -/
theorem checkUpdateNeededPolicyWitness :
    check_update_needed "~=1.2.0" "1.2.5" = true ↔
      verLt ⟨[1, 2, 0]⟩ ⟨[1, 2, 5]⟩ = true ∧
        (PyVersion.mk [1, 2, 5]).release.take 2 =
          (PyVersion.mk [1, 2, 0]).release.take 2 :=
  (checkUpdateNeededPolicy "~=1.2.0" "1.2.5").2.1
    [⟨SpecOp.compat, ⟨[1, 2, 0]⟩⟩] ⟨[1, 2, 5]⟩ ⟨[1, 2, 0]⟩
    (by decide) (by decide) (by decide) (by decide)

/-- C6: whenever the specifier fails to parse as a specifier set or the
latest-version string fails to parse as a version, `check_update_needed`
answers true (fail open); being a total Lean function of its two strings,
it propagates no error to its caller. -/
theorem checkUpdateNeededFailOpen (cs lv : String)
    (h : parseSpecifierSet cs = none ∨ versionParse lv = none) :
    check_update_needed cs lv = true := by
  by_cases hcs : cs = ""
  · simp [check_update_needed, hcs]
  · rcases h with h | h
    · cases hv : versionParse lv <;>
        simp [check_update_needed, hcs, h, hv]
    · cases hp : parseSpecifierSet cs <;>
        simp [check_update_needed, hcs, h, hp]

/-- C6 witness: a bare version is an invalid specifier and fail-opens. -/
theorem checkUpdateNeededFailOpenWitness :
    parseSpecifierSet "1.0.0" = none ∧
    check_update_needed "1.0.0" "2.0.0" = true :=
  ⟨by decide, checkUpdateNeededFailOpen "1.0.0" "2.0.0" (Or.inl (by decide))⟩

/-- C7: `update_requirement` preserves the comparison operator and repins
bare names: `foo>=1.0.0` bumped to `2.0.0` renders exactly `foo>=2.0.0`;
every requirement whose parsed operator is `~=` renders as
`name ++ "~=" ++ latestVersion`; and the bare name `bar` renders as
`bar==2.0.0`. -/
theorem updateRequirementRenders :
    update_requirement "foo>=1.0.0" "2.0.0" = "foo>=2.0.0" ∧
    (∀ req lv : String, (parse_requirement req).operator = "~=" →
      update_requirement req lv = (parse_requirement req).name ++ "~=" ++ lv) ∧
    update_requirement "bar" "2.0.0" = "bar==2.0.0" := by
  refine ⟨by decide, ?_, by decide⟩
  intro req lv hop
  have hspec : (parse_requirement req).spec ≠ "" := by
    intro h
    rw [operator_empty_of_spec_empty req h] at hop
    exact absurd hop (by decide)
  simp only [update_requirement, if_pos hspec, if_pos hop]

/-- C7 witness: the `~=` case applied at `baz~=1.0.0`. -/
theorem updateRequirementRendersWitness :
    update_requirement "baz~=1.0.0" "1.2.3" =
      (parse_requirement "baz~=1.0.0").name ++ "~=" ++ "1.2.3" :=
  updateRequirementRenders.2.1 "baz~=1.0.0" "1.2.3" (by decide)

/-- C8: for every registry and repository, every update stored in any
file's list of the map returned by `check_dependencies` satisfies
`old ≠ new` — the append is guarded by `req != updated_req`, so no no-op
rewrite is ever surfaced to review. -/
theorem checkDependenciesNoNoop (registry : String → Option String)
    (repo : Repo) :
    ∀ fp l, (fp, l) ∈ check_dependencies registry repo →
      ∀ u ∈ l, u.old ≠ u.new :=
  fun _ _ h u hu => (check_dependencies_good registry repo _ h).2.2 u hu

/-- C8 witness: applied at the one-line `flask==1.0.0` repository. -/
theorem checkDependenciesNoNoopWitness :
    ("flask==1.0.0" : String) ≠ "flask==2.0.0" :=
  checkDependenciesNoNoop registryW repoW "requirements.txt"
    [VersionUpdate.mk "flask==1.0.0" "flask==2.0.0"] (by decide)
    (VersionUpdate.mk "flask==1.0.0" "flask==2.0.0") (by decide)

/-- C9: for every registry and repository, the update map returned by
`check_dependencies` never stores an empty update list, and a manifest
absent from the repository's top-level listing contributes no entry at
all (it is skipped with a warning). -/
theorem checkDependenciesMapInvariants (registry : String → Option String)
    (repo : Repo) :
    (∀ fp l, (fp, l) ∈ check_dependencies registry repo → l ≠ []) ∧
    (∀ fp, fp ∉ repo.listing →
      ∀ l, (fp, l) ∉ check_dependencies registry repo) := by
  constructor
  · intro fp l h
    exact (check_dependencies_good registry repo _ h).2.1
  · intro fp hfp l hmem
    exact hfp ((check_dependencies_good registry repo _ hmem).1)

/-- C9 witness: `setup.py` is absent from the fixture repository, so no
entry for it can be in the returned map. -/
theorem checkDependenciesMapInvariantsWitness :
    ("setup.py", [VersionUpdate.mk "flask==1.0.0" "flask==2.0.0"]) ∉
      check_dependencies registryW repoW :=
  (checkDependenciesMapInvariants registryW repoW).2 "setup.py" (by decide)
    [VersionUpdate.mk "flask==1.0.0" "flask==2.0.0"]

/-- C10: every input line whose text begins with one of the excluded
tokens `--`, `-e`, `from`, `import`, `def`, `os`, `sys` — including as a
proper prefix of a longer package name — parses to the empty-name
sentinel, and its line produces no registry lookup result and no proposed
update, whatever the registry answers. -/
theorem excludedPrefixSkipsLine (req tok : String)
    (registry : String → Option String) (htok : tok ∈ excludedStarts)
    (hpre : charsStart tok.data req.data = true) :
    parse_requirement req = { name := "", spec := "", operator := "" } ∧
    get_latest_version registry (parse_requirement req).name = none ∧
    processRequirement registry req = none := by
  have hq : tok.data.all (fun c => !isQuoteChar c) = true := by
    fin_cases htok <;> decide
  have hne : tok.data ≠ [] := by
    fin_cases htok <;> decide
  have hstart := stripQuotes_keeps_start tok req hq hne hpre
  have hany : startsWithAny (stripQuotes req).data excludedStarts = true :=
    startsWithAny_of_mem tok _ excludedStarts htok hstart
  have hparse : parse_requirement req = { name := "", spec := "", operator := "" } := by
    simp only [parse_requirement, hany, if_true]
  refine ⟨hparse, ?_, ?_⟩
  · rw [hparse]
    simp [get_latest_version]
  · simp [processRequirement, hparse, get_latest_version]

/-- C10 witness: `oscrypto==1.0.0` begins with the token `os`, so it is
skipped even against a registry that would answer for every name. -/
theorem excludedPrefixSkipsLineWitness :
    parse_requirement "oscrypto==1.0.0" =
      { name := "", spec := "", operator := "" } ∧
    get_latest_version (fun _ => some "9.9.9")
      (parse_requirement "oscrypto==1.0.0").name = none ∧
    processRequirement (fun _ => some "9.9.9") "oscrypto==1.0.0" = none :=
  excludedPrefixSkipsLine "oscrypto==1.0.0" "os" (fun _ => some "9.9.9")
    (by decide) (by decide)

end PackagePatrol
